import Mathlib

set_option maxRecDepth 20000
set_option maxHeartbeats 1000000

/-!
Verification of the correction-gating and caching pipeline of
`examples/llm_post_processing/nerd-dictation.py`.

Python strings are modelled as lists of characters (`PStr`, ASCII scope),
wall-clock times (`time.time()`) as rationals, and the external Ollama
oracle as an explicit `OracleResponse` value that is consumed only on the
code paths where the Python code would perform the HTTP request.  Mutable
module state (`_llm_cache`, `_last_llm_call_time`,
`_last_llm_processed_text`, `_last_processed_text`) is threaded
explicitly through the functions; each stateful entry point returns the
result string, the updated state and a flag recording whether the oracle
was invoked on that call.
-/

/-- Model of a Python `str`: a list of characters. -/
abbrev PStr := List Char

/-- The single-quote character, `chr(39)`. -/
def squote : Char := Char.ofNat 39

/-- The double-quote character, `chr(34)`. -/
def dquote : Char := Char.ofNat 34

/-- The opening-brace character, `chr(123)`. -/
def obrace : Char := Char.ofNat 123

/-- The closing-brace character, `chr(125)`. -/
def cbrace : Char := Char.ofNat 125

/-- ASCII whitespace as recognised by Python `str.split()` / `str.strip()`. -/
def pyIsSpace (c : Char) : Bool :=
  c = ' ' || c = Char.ofNat 9 || c = Char.ofNat 10 || c = Char.ofNat 13 ||
  c = Char.ofNat 11 || c = Char.ofNat 12

/-- The sentence-terminal punctuation set of `rstrip('.,!?')`. -/
def isPunct (c : Char) : Bool :=
  c = '.' || c = ',' || c = '!' || c = '?'

/-- The quote-character set of `strip('"\'')` (line 118 of the source). -/
def isQuote (c : Char) : Bool :=
  c = dquote || c = squote

/-- Python `\w` for ASCII input: letters, digits and underscore. -/
def isWordChar (c : Char) : Bool :=
  c.isAlphanum || c = '_'

/-- `startsWithP p s` is Python `s.startswith(p)`. -/
def startsWithP : PStr → PStr → Bool
  | [], _ => true
  | _ :: _, [] => false
  | c :: p, d :: s => if c = d then startsWithP p s else false

/-- Substring test (Python `needle in hay`). -/
def containsSub (needle : PStr) : PStr → Bool
  | [] => startsWithP needle []
  | s@(_ :: rest) => startsWithP needle s || containsSub needle rest

/-- Python `str.lower()` on ASCII text. -/
def toLowerP (s : PStr) : PStr := s.map Char.toLower

/-- Remove the maximal trailing run of characters satisfying `P`. -/
def dropTrailing (P : Char → Bool) (s : PStr) : PStr :=
  (s.reverse.dropWhile P).reverse

/-- Python `s.rstrip('.,!?')` as used by `should_process_with_llm`. -/
def pyRstrip (s : PStr) : PStr := dropTrailing isPunct s

/-- Python `s.strip(chars)` for the character class `P`: remove the
maximal leading and trailing runs of characters satisfying `P`. -/
def pyStripSet (P : Char → Bool) (s : PStr) : PStr :=
  dropTrailing P (s.dropWhile P)

/-- Python `s.strip()` (no argument): trim surrounding whitespace. -/
def pyStripWs (s : PStr) : PStr := pyStripSet pyIsSpace s

/-- Line 118 of the source: `improved_text.strip('"\'')` — remove all
leading and trailing single/double quote characters. -/
def stripQuotes (s : PStr) : PStr := pyStripSet isQuote s

/-- Worker for `pySplitWs`; `acc` is the current word, reversed. -/
def pySplitWsAux : PStr → PStr → List PStr
  | acc, [] => if acc.isEmpty then [] else [acc.reverse]
  | acc, c :: rest =>
    if pyIsSpace c then
      if acc.isEmpty then pySplitWsAux [] rest
      else acc.reverse :: pySplitWsAux [] rest
    else pySplitWsAux (c :: acc) rest

/-- Python `s.split()` (no argument): split on whitespace runs,
discarding empty pieces. -/
def pySplitWs (s : PStr) : List PStr := pySplitWsAux [] s

/-- Python `s.split(" ")`: split on every single space character,
keeping empty pieces. -/
def splitOnSpace : PStr → List PStr
  | [] => [[]]
  | c :: rest =>
    if c = ' ' then [] :: splitOnSpace rest
    else
      match splitOnSpace rest with
      | [] => [[c]]
      | w :: ws => (c :: w) :: ws

/-- Python `" ".join(ws)`. -/
def joinSpace : List PStr → PStr
  | [] => []
  | [w] => w
  | w :: ws => w ++ ' ' :: joinSpace ws

/-- Line 128 of the source: `' '.join(improved_text.split())` — collapse
internal whitespace runs to single spaces (and trim the ends). -/
def collapseWs (s : PStr) : PStr := joinSpace (pySplitWs s)

/-- Lookup in an insertion-ordered association list (model of a Python
dict read, `d.get(k)` / `d[k]` / `k in d`). -/
def lookupA : List (PStr × PStr) → PStr → Option PStr
  | [], _ => none
  | (k, v) :: m, x => if k = x then some v else lookupA m x

/-- Subtraction on `ℚ`, written out on numerators and denominators so
that the kernel can evaluate it (the library's `Rat.sub` is declared
irreducible); `ratSub_eq` below identifies it with `a - b`. -/
def ratSub (a b : ℚ) : ℚ := mkRat (a.num * b.den - b.num * a.den) (a.den * b.den)

/-- Multiplication on `ℚ`, written out on numerators and denominators so
that the kernel can evaluate it; `ratMul_eq` below identifies it with
`a * b`. -/
def ratMul (a b : ℚ) : ℚ := mkRat (a.num * b.num) (a.den * b.den)

/-! ### Configuration constants (lines 19–33 of the source) -/

/-- Line 19: `LLM_ENABLED = True`. -/
def LLM_ENABLED : Bool := true

/-- Line 20: `LLM_MIN_WORDS = 3`. -/
def LLM_MIN_WORDS : Nat := 3

/-- Line 25: `LLM_CACHE_MAX_SIZE = 100`. -/
def LLM_CACHE_MAX_SIZE : Nat := 100

/-- Line 29: `LLM_DEBOUNCE_DELAY = 0.3` seconds. -/
def LLM_DEBOUNCE_DELAY : ℚ := mkRat 3 10

/-- Line 33: `MIN_TEXT_LENGTH_FOR_LLM = 15`. -/
def MIN_TEXT_LENGTH_FOR_LLM : Nat := 15

/-! ### The progressive-extension detector (source lines 35–52) -/

/-- `should_process_with_llm` (source lines 35–52).  The global
`_last_llm_processed_text` is passed explicitly as the second argument. -/
def should_process_with_llm (text last_llm_processed_text : PStr) : Bool :=
  if (pySplitWs text).length < LLM_MIN_WORDS ∨ text.length < MIN_TEXT_LENGTH_FOR_LLM then
    false
  else if last_llm_processed_text ≠ [] ∧
      startsWithP (pyRstrip last_llm_processed_text) text = true then
    false
  else if last_llm_processed_text ≠ [] ∧
      startsWithP (pyRstrip text) last_llm_processed_text = true then
    false
  else
    true

/-! ### The debounce gate (source lines 66–69) -/

/-- The debounce gate of `improve_text_with_llm` (source lines 66–69):
given the current time and the stored `_last_llm_call_time`, return
whether the call may proceed together with the new timestamp value. -/
def debounce_allow (now last : ℚ) : Bool × ℚ :=
  if ratSub now last < LLM_DEBOUNCE_DELAY then (false, last) else (true, now)

/-! ### The bounded FIFO cache (source lines 133–136, 149–151, 158–160, 165–167) -/

/-- One cache store, as performed at source lines 133–136 (and repeated
verbatim at 149–151, 158–160 and 165–167): if the cache is at capacity,
`_llm_cache.pop(next(iter(_llm_cache)))` removes the oldest-inserted
entry, then `_llm_cache[text] = value` stores the binding (keeping the
position of an existing key, appending a new key at the end, as a Python
dict does). -/
def llm_cache_put (cache : List (PStr × PStr)) (k v : PStr) : List (PStr × PStr) :=
  let cache := if LLM_CACHE_MAX_SIZE ≤ cache.length then cache.tail else cache
  match lookupA cache k with
  | some _ => cache.map (fun p => if p.1 = k then (k, v) else p)
  | none => cache ++ [(k, v)]

/-! ### The output sanitizer (source lines 113–128) -/

/-- The commentary markers of the parenthetical-removal regex
(source line 123), lowercased. -/
def commentMarkers : List PStr :=
  [("changes needed".data), ("pronunciation".data), ("grammar".data), ("correct".data)]

/-- Case-insensitive test whether a parenthetical content contains one of
the commentary markers (source line 123). -/
def containsMarker (content : PStr) : Bool :=
  commentMarkers.any (fun m => containsSub m (toLowerP content))

/-- Worker for `removeParentheticals`, structurally recursive on a fuel
bound (initialised to the string length, which is sufficient because
every step consumes at least one character). -/
def removeParenAux : Nat → PStr → PStr
  | 0, s => s
  | _ + 1, [] => []
  | fuel + 1, c :: rest =>
    let t := List.dropWhile pyIsSpace (c :: rest)
    match t with
    | '(' :: u =>
      let content := List.takeWhile (fun d => !(d = ')' : Bool)) u
      let after := List.dropWhile (fun d => !(d = ')' : Bool)) u
      match after with
      | ')' :: v =>
        if containsMarker content then removeParenAux fuel v
        else c :: removeParenAux fuel rest
      | _ => c :: removeParenAux fuel rest
    | _ => c :: removeParenAux fuel rest

/-- Source line 123:
`re.sub(r'\s*\([^)]*(?:changes needed|pronunciation|grammar|correct)[^)]*\)', '', s, flags=re.IGNORECASE)`.
Because `[^)]` cannot cross a closing parenthesis, a match is exactly a
whitespace run followed by a parenthesized group (up to the first `)`)
whose content contains a marker; matches are removed left to right. -/
def removeParentheticals (s : PStr) : PStr := removeParenAux s.length s

/-- The leading-commentary phrases of source line 125, lowercased, in
the alternation order of the pattern. -/
def commentPhrases : List PStr :=
  [("no changes needed".data), ("pronunciation:".data), ("grammar:".data), ("note:".data)]

/-- Case-insensitive prefix test (`p` is already lowercase). -/
def startsWithCI (p s : PStr) : Bool := startsWithP p (toLowerP s)

/-- Worker for `removeLeadingSentences` (fuel as in `removeParenAux`). -/
def removeSentAux : Nat → PStr → PStr
  | 0, s => s
  | _ + 1, [] => []
  | fuel + 1, c :: rest =>
    let t := List.dropWhile pyIsSpace (c :: rest)
    match commentPhrases.find? (fun p => startsWithCI p t) with
    | some p =>
      let u := List.drop p.length t
      let u2 := List.dropWhile (fun d => !(d = '.' : Bool)) u
      removeSentAux fuel (match u2 with | '.' :: v => v | _ => u2)
    | none => c :: removeSentAux fuel rest

/-- Source line 125:
`re.sub(r'\s*(No changes needed|Pronunciation:|Grammar:|Note:)[^.]*\.?', '', s, flags=re.IGNORECASE)`:
remove a whitespace run, one of the phrases, everything up to the next
period, and the period itself if present; matches removed left to right. -/
def removeLeadingSentences (s : PStr) : PStr := removeSentAux s.length s

/-- The whole sanitization chain applied to a non-empty trimmed oracle
response (source lines 118–128): quote stripping, parenthetical removal,
leading-commentary removal, whitespace collapsing. -/
def sanitizeOut (s : PStr) : PStr :=
  collapseWs (removeLeadingSentences (removeParentheticals (stripQuotes s)))

/-- Source line 131: `0.3 <= len(improved_text) <= len(text) * 2`.  The
lower bound compares `0.3` with the *absolute* length of the cleaned
text (not with `0.3 * len(text)`). -/
def lengthValid (text improved : PStr) : Bool :=
  decide (mkRat 3 10 ≤ (improved.length : ℚ)) &&
  decide ((improved.length : ℚ) ≤ ratMul (text.length : ℚ) 2)

/-! ### The orchestrator `improve_text_with_llm` (source lines 54–168) -/

/-- Outcome of the outbound HTTP request of source lines 108–110: either
a raised transport exception (connection error, timeout, or a later
exception such as JSON decoding — all caught by the `except` at line
162), or a response with a status code and, for status 200, the
`result["response"]` payload string. -/
inductive OracleResponse where
  | exn : OracleResponse
  | ok (status : Nat) (body : PStr) : OracleResponse
deriving DecidableEq

/-- The module-level mutable state read and written by
`improve_text_with_llm`. -/
structure LLMState where
  llm_cache : List (PStr × PStr)
  last_llm_call_time : ℚ
  last_llm_processed_text : PStr
deriving DecidableEq

/-- Initial module state (source lines 23, 28, 32). -/
def initLLMState : LLMState := ⟨[], 0, []⟩

/-- `improve_text_with_llm` (source lines 54–168).  Returns the result
string, the updated state, and whether the oracle was invoked. -/
def improve_text_with_llm (text : PStr) (now : ℚ) (resp : OracleResponse)
    (st : LLMState) : PStr × LLMState × Bool :=
  if LLM_ENABLED = false then (text, st, false)
  else if should_process_with_llm text st.last_llm_processed_text = false then
    (text, st, false)
  else
    match debounce_allow now st.last_llm_call_time with
    | (false, _) => (text, st, false)
    | (true, t) =>
      let st := { st with last_llm_call_time := t }
      match lookupA st.llm_cache text with
      | some v => (v, st, false)
      | none =>
        match resp with
        | .exn =>
          (text, { st with llm_cache := llm_cache_put st.llm_cache text text }, true)
        | .ok status body =>
          if status = 200 then
            let improved := pyStripWs body
            if improved ≠ [] then
              let cleaned := sanitizeOut improved
              if cleaned ≠ [] ∧ lengthValid text cleaned = true then
                (cleaned,
                 { st with llm_cache := llm_cache_put st.llm_cache text cleaned,
                           last_llm_processed_text := cleaned }, true)
              else
                (text, { st with llm_cache := llm_cache_put st.llm_cache text text }, true)
            else
              (text, st, true)
          else
            (text, { st with llm_cache := llm_cache_put st.llm_cache text text }, true)

/-! ### The static substitution tables (source lines 174–560), data only -/

def TEXT_REPLACE_REGEX : List (PStr × PStr) := [
  (("data type".data), ("data-type".data)),
  (("copy on write".data), ("copy-on-write".data)),
  (("key word".data), ("keyword".data)),
  (("back end".data), ("backend".data)),
  (("front end".data), ("frontend".data)),
  (("full stack".data), ("full-stack".data)),
  (("real time".data), ("real-time".data)),
  (("run time".data), ("runtime".data)),
  (("compile time".data), ("compile-time".data)),
  (("time out".data), ("timeout".data)),
  (("log in".data), ("login".data)),
  (("log out".data), ("logout".data)),
  (("set up".data), ("setup".data)),
  (("work flow".data), ("workflow".data)),
  (("name space".data), ("namespace".data)),
  (("data base".data), ("database".data)),
  (("web site".data), ("website".data)),
  (("user name".data), ("username".data)),
  (("file name".data), ("filename".data)),
  (("file path".data), ("filepath".data)),
  (("code base".data), ("codebase".data)),
  (("open source".data), ("open-source".data)),
  (("pull request".data), ("pull request".data)),
  (("merge request".data), ("merge request".data)),
  (("callback function".data), ("callback".data)),
  (("async await".data), ("async/await".data)),
  (("try catch".data), ("try-catch".data)),
  (("if else".data), ("if-else".data)),
  (("for loop".data), ("for-loop".data)),
  (("while loop".data), ("while-loop".data)),
  (("switch case".data), ("switch-case".data)),
  (("test driven development".data), ("test-driven development".data)),
  (("behavior driven development".data), ("behavior-driven development".data)),
  (("continuous integration".data), ("continuous integration".data)),
  (("continuous deployment".data), ("continuous deployment".data)),
  (("micro service".data), ("microservice".data)),
  (("micro services".data), ("microservices".data)),
  (("dot js".data), (".js".data)),
  (("dot ts".data), (".ts".data)),
  (("dot py".data), (".py".data)),
  (("dot json".data), (".json".data)),
  (("dot yml".data), (".yml".data)),
  (("dot yaml".data), (".yaml".data)),
  (("dot md".data), (".md".data)),
  (("dot txt".data), (".txt".data)),
  (("dot html".data), (".html".data)),
  (("dot css".data), (".css".data)),
  (("dot sql".data), (".sql".data)),
  (("dot xml".data), (".xml".data)),
  (("dot sh".data), (".sh".data)),
  (("dot env".data), (".env".data)),
  (("dot config".data), (".config".data)),
  (("git commit".data), ("git commit".data)),
  (("git push".data), ("git push".data)),
  (("git pull".data), ("git pull".data)),
  (("git merge".data), ("git merge".data)),
  (("git rebase".data), ("git rebase".data)),
  (("git checkout".data), ("git checkout".data)),
  (("git branch".data), ("git branch".data)),
  (("git status".data), ("git status".data)),
  (("git diff".data), ("git diff".data)),
  (("git log".data), ("git log".data)),
  (("git add".data), ("git add".data)),
  (("git clone".data), ("git clone".data))
]

def CLOSING_PUNCTUATION : List (PStr × PStr) := [
  (("period".data), (".".data)),
  (("comma".data), (",".data)),
  (("question mark".data), ("?".data)),
  (("exclamation mark".data), ("!".data)),
  (("close quote".data), ("\"".data)),
  (("close single quote".data), [squote]),
  (("semicolon".data), (";".data)),
  (("colon".data), (":".data)),
  (("close paren".data), (")".data)),
  (("close bracket".data), ("]".data)),
  (("close brace".data), [cbrace]),
  (("close angle".data), (">".data))
]

def OPENING_PUNCTUATION : List (PStr × PStr) := [
  (("open quote".data), ("\"".data)),
  (("open single quote".data), [squote]),
  (("open paren".data), ("(".data)),
  (("open bracket".data), ("[".data)),
  (("open brace".data), [obrace]),
  (("open angle".data), ("<".data))
]

def CODE_PATTERNS : List (PStr × PStr) := [
  (("arrow function".data), ("=>".data)),
  (("fat arrow".data), ("=>".data)),
  (("equals equals".data), ("==".data)),
  (("triple equals".data), ("===".data)),
  (("not equals".data), ("!=".data)),
  (("not triple equals".data), ("!==".data)),
  (("greater than or equal".data), (">=".data)),
  (("less than or equal".data), ("<=".data)),
  (("plus equals".data), ("+=".data)),
  (("minus equals".data), ("-=".data)),
  (("times equals".data), ("*=".data)),
  (("divide equals".data), ("/=".data)),
  (("modulo equals".data), ("%=".data)),
  (("and and".data), ("&&".data)),
  (("or or".data), ("||".data)),
  (("not not".data), ("!!".data)),
  (("plus plus".data), ("++".data)),
  (("minus minus".data), ("--".data)),
  (("dot dot dot".data), ("...".data)),
  (("spread operator".data), ("...".data)),
  (("rest operator".data), ("...".data)),
  (("nullish coalescing".data), ("??".data)),
  (("optional chaining".data), ("?.".data)),
  (("ternary".data), ("?".data)),
  (("pipe".data), ("|".data)),
  (("ampersand".data), ("&".data)),
  (("tilde".data), ("~".data)),
  (("caret".data), ("^".data)),
  (("backslash".data), ("\\".data)),
  (("forward slash".data), ("/".data)),
  (("at symbol".data), ("@".data)),
  (("hash".data), ("#".data)),
  (("dollar sign".data), ("$".data)),
  (("percent".data), ("%".data)),
  (("underscore".data), ("_".data)),
  (("backtick".data), ("`".data))
]

def WORD_REPLACE : List (PStr × PStr) := [
  (("i".data), ("I".data)),
  (("um".data), ("".data)),
  (("uh".data), ("".data)),
  (("api".data), ("API".data)),
  (("rest".data), ("REST".data)),
  (("http".data), ("HTTP".data)),
  (("https".data), ("HTTPS".data)),
  (("url".data), ("URL".data)),
  (("uri".data), ("URI".data)),
  (("sql".data), ("SQL".data)),
  (("json".data), ("JSON".data)),
  (("xml".data), ("XML".data)),
  (("html".data), ("HTML".data)),
  (("css".data), ("CSS".data)),
  (("dom".data), ("DOM".data)),
  (("crud".data), ("CRUD".data)),
  (("oauth".data), ("OAuth".data)),
  (("jwt".data), ("JWT".data)),
  (("ssl".data), ("SSL".data)),
  (("tls".data), ("TLS".data)),
  (("ssh".data), ("SSH".data)),
  (("tcp".data), ("TCP".data)),
  (("udp".data), ("UDP".data)),
  (("ip".data), ("IP".data)),
  (("dns".data), ("DNS".data)),
  (("cdn".data), ("CDN".data)),
  (("aws".data), ("AWS".data)),
  (("gcp".data), ("GCP".data)),
  (("ide".data), ("IDE".data)),
  (("cli".data), ("CLI".data)),
  (("gui".data), ("GUI".data)),
  (("ui".data), ("UI".data)),
  (("ux".data), ("UX".data)),
  (("ci".data), ("CI".data)),
  (("cd".data), ("CD".data)),
  (("devops".data), ("DevOps".data)),
  (("mlops".data), ("MLOps".data)),
  (("ai".data), ("AI".data)),
  (("ml".data), ("ML".data)),
  (("iot".data), ("IoT".data)),
  (("saas".data), ("SaaS".data)),
  (("paas".data), ("PaaS".data)),
  (("iaas".data), ("IaaS".data)),
  (("linux".data), ("Linux".data)),
  (("ubuntu".data), ("Ubuntu".data)),
  (("centos".data), ("CentOS".data)),
  (("debian".data), ("Debian".data)),
  (("redhat".data), ("Red Hat".data)),
  (("macos".data), ("macOS".data)),
  (("windows".data), ("Windows".data)),
  (("android".data), ("Android".data)),
  (("ios".data), ("iOS".data)),
  (("javascript".data), ("JavaScript".data)),
  (("typescript".data), ("TypeScript".data)),
  (("python".data), ("Python".data)),
  (("java".data), ("Java".data)),
  (("csharp".data), ("C#".data)),
  (("cplusplus".data), ("C++".data)),
  (("golang".data), ("Go".data)),
  (("rust".data), ("Rust".data)),
  (("kotlin".data), ("Kotlin".data)),
  (("swift".data), ("Swift".data)),
  (("ruby".data), ("Ruby".data)),
  (("php".data), ("PHP".data)),
  (("perl".data), ("Perl".data)),
  (("scala".data), ("Scala".data)),
  (("haskell".data), ("Haskell".data)),
  (("clojure".data), ("Clojure".data)),
  (("elixir".data), ("Elixir".data)),
  (("dart".data), ("Dart".data)),
  (("react".data), ("React".data)),
  (("vue".data), ("Vue".data)),
  (("angular".data), ("Angular".data)),
  (("express".data), ("Express".data)),
  (("flask".data), ("Flask".data)),
  (("django".data), ("Django".data)),
  (("rails".data), ("Rails".data)),
  (("spring".data), ("Spring".data)),
  (("laravel".data), ("Laravel".data)),
  (("nextjs".data), ("Next.js".data)),
  (("nuxt".data), ("Nuxt".data)),
  (("gatsby".data), ("Gatsby".data)),
  (("svelte".data), ("Svelte".data)),
  (("jquery".data), ("jQuery".data)),
  (("bootstrap".data), ("Bootstrap".data)),
  (("tailwind".data), ("Tailwind".data)),
  (("redux".data), ("Redux".data)),
  (("mobx".data), ("MobX".data)),
  (("graphql".data), ("GraphQL".data)),
  (("apollo".data), ("Apollo".data)),
  (("prisma".data), ("Prisma".data)),
  (("mongoose".data), ("Mongoose".data)),
  (("sequelize".data), ("Sequelize".data)),
  (("mysql".data), ("MySQL".data)),
  (("postgresql".data), ("PostgreSQL".data)),
  (("mongodb".data), ("MongoDB".data)),
  (("redis".data), ("Redis".data)),
  (("elasticsearch".data), ("Elasticsearch".data)),
  (("cassandra".data), ("Cassandra".data)),
  (("dynamodb".data), ("DynamoDB".data)),
  (("firebase".data), ("Firebase".data)),
  (("sqlite".data), ("SQLite".data)),
  (("git".data), ("Git".data)),
  (("github".data), ("GitHub".data)),
  (("gitlab".data), ("GitLab".data)),
  (("bitbucket".data), ("Bitbucket".data)),
  (("docker".data), ("Docker".data)),
  (("kubernetes".data), ("Kubernetes".data)),
  (("jenkins".data), ("Jenkins".data)),
  (("ansible".data), ("Ansible".data)),
  (("terraform".data), ("Terraform".data)),
  (("vagrant".data), ("Vagrant".data)),
  (("webpack".data), ("Webpack".data)),
  (("babel".data), ("Babel".data)),
  (("eslint".data), ("ESLint".data)),
  (("prettier".data), ("Prettier".data)),
  (("jest".data), ("Jest".data)),
  (("mocha".data), ("Mocha".data)),
  (("cypress".data), ("Cypress".data)),
  (("selenium".data), ("Selenium".data)),
  (("postman".data), ("Postman".data)),
  (("insomnia".data), ("Insomnia".data)),
  (("vscode".data), ("VS Code".data)),
  (("vim".data), ("Vim".data)),
  (("emacs".data), ("Emacs".data)),
  (("intellij".data), ("IntelliJ".data)),
  (("eclipse".data), ("Eclipse".data)),
  (("xcode".data), ("Xcode".data)),
  (("amazon".data), ("Amazon".data)),
  (("microsoft".data), ("Microsoft".data)),
  (("google".data), ("Google".data)),
  (("azure".data), ("Azure".data)),
  (("cloudflare".data), ("Cloudflare".data)),
  (("heroku".data), ("Heroku".data)),
  (("netlify".data), ("Netlify".data)),
  (("vercel".data), ("Vercel".data)),
  (("digitalocean".data), ("DigitalOcean".data)),
  (("linode".data), ("Linode".data)),
  (("async".data), ("async".data)),
  (("await".data), ("await".data)),
  (("boolean".data), ("boolean".data)),
  (("integer".data), ("integer".data)),
  (("string".data), ("string".data)),
  (("object".data), ("object".data)),
  (("array".data), ("array".data)),
  (("function".data), ("function".data)),
  (("method".data), ("method".data)),
  (("class".data), ("class".data)),
  (("interface".data), ("interface".data)),
  (("enum".data), ("enum".data)),
  (("struct".data), ("struct".data)),
  (("union".data), ("union".data)),
  (("constant".data), ("constant".data)),
  (("variable".data), ("variable".data)),
  (("parameter".data), ("parameter".data)),
  (("argument".data), ("argument".data)),
  (("return".data), ("return".data)),
  (("import".data), ("import".data)),
  (("export".data), ("export".data)),
  (("module".data), ("module".data)),
  (("package".data), ("package".data)),
  (("library".data), ("library".data)),
  (("framework".data), ("framework".data)),
  (("dependency".data), ("dependency".data)),
  (("repository".data), ("repository".data)),
  (("branch".data), ("branch".data)),
  (("commit".data), ("commit".data)),
  (("merge".data), ("merge".data)),
  (("rebase".data), ("rebase".data)),
  (("checkout".data), ("checkout".data)),
  (("pull".data), ("pull".data)),
  (("push".data), ("push".data)),
  (("clone".data), ("clone".data)),
  (("fork".data), ("fork".data)),
  (("issue".data), ("issue".data)),
  (("bug".data), ("bug".data)),
  (("feature".data), ("feature".data)),
  (("refactor".data), ("refactor".data)),
  (("optimize".data), ("optimize".data)),
  (("deploy".data), ("deploy".data)),
  (("build".data), ("build".data)),
  (("compile".data), ("compile".data)),
  (("debug".data), ("debug".data)),
  (("test".data), ("test".data)),
  (("unit".data), ("unit".data)),
  (("integration".data), ("integration".data)),
  (("endpoint".data), ("endpoint".data)),
  (("middleware".data), ("middleware".data)),
  (("authentication".data), ("authentication".data)),
  (("authorization".data), ("authorization".data)),
  (("encryption".data), ("encryption".data)),
  (("hash".data), ("hash".data)),
  (("algorithm".data), ("algorithm".data)),
  (("data".data), ("data".data)),
  (("schema".data), ("schema".data)),
  (("model".data), ("model".data)),
  (("controller".data), ("controller".data)),
  (("service".data), ("service".data)),
  (("component".data), ("component".data)),
  (("template".data), ("template".data)),
  (("configuration".data), ("configuration".data)),
  (("environment".data), ("environment".data)),
  (("production".data), ("production".data)),
  (("development".data), ("development".data)),
  (("staging".data), ("staging".data)),
  (("localhost".data), ("localhost".data)),
  (("server".data), ("server".data)),
  (("client".data), ("client".data)),
  (("browser".data), ("browser".data)),
  (("mobile".data), ("mobile".data)),
  (("responsive".data), ("responsive".data)),
  (("performance".data), ("performance".data)),
  (("scalability".data), ("scalability".data)),
  (("security".data), ("security".data)),
  (("vulnerability".data), ("vulnerability".data))
]

/-! ### The deterministic post-processing stage (source lines 565–618) -/

/-- Boundary test for the position just before a `\b`-delimited literal
pattern: the previous character's word-ness must differ from that of the
pattern's first character. -/
def boundaryBeforeOK (prevW : Bool) (pat : PStr) : Bool :=
  prevW != isWordChar (pat.headD ' ')

/-- Boundary test for the position just after a `\b`-delimited literal
pattern: the word-ness of the pattern's last character must differ from
that of the following character (end of string counts as non-word). -/
def boundaryAfterOK (pat after : PStr) : Bool :=
  isWordChar (pat.getLastD ' ') !=
    (match after with | [] => false | d :: _ => isWordChar d)

/-- Worker for `subWB`: scan left to right carrying the word-ness of the
previous character, replacing every non-overlapping occurrence of the
`\b`-delimited literal `pat`, continuing after each match (fuel as in
`removeParenAux`; `pat` is never empty in the tables). -/
def subWBAux (pat repl : PStr) : Nat → Bool → PStr → PStr
  | 0, _, s => s
  | _ + 1, _, [] => []
  | fuel + 1, prevW, c :: rest =>
    if pat ≠ [] ∧ boundaryBeforeOK prevW pat = true ∧
        startsWithP pat (c :: rest) = true ∧
        boundaryAfterOK pat (List.drop pat.length (c :: rest)) = true then
      repl ++ subWBAux pat repl fuel (isWordChar (pat.getLastD ' '))
        (List.drop pat.length (c :: rest))
    else
      c :: subWBAux pat repl fuel (isWordChar c) rest

/-- Python `re.sub` for the patterns of `TEXT_REPLACE_REGEX`, which are
all of the form `\b<literal>\b` (source lines 174–250). -/
def subWB (pat repl s : PStr) : PStr := subWBAux pat repl s.length false s

/-- Worker for `replaceAll` (fuel as in `removeParenAux`; `pat` is never
empty at the call sites). -/
def replaceAllAux (pat repl : PStr) : Nat → PStr → PStr
  | 0, s => s
  | _ + 1, [] => []
  | fuel + 1, c :: rest =>
    if pat ≠ [] ∧ startsWithP pat (c :: rest) = true then
      repl ++ replaceAllAux pat repl fuel (List.drop pat.length (c :: rest))
    else
      c :: replaceAllAux pat repl fuel rest

/-- Python `s.replace(pat, repl)`: replace all non-overlapping
occurrences, left to right. -/
def replaceAll (pat repl s : PStr) : PStr := replaceAllAux pat repl s.length s

/-- `WORD_REPLACE_REGEX` (source lines 489–495) holds the single pattern
`("^i'(.*)", "I'\1")`: a word starting with `i'` has that `i`
capitalised. -/
def applyWordReplaceRegex (w : PStr) : PStr :=
  if startsWithP ['i', squote] w = true then 'I' :: squote :: List.drop 2 w else w

/-- The per-word replacement of source lines 600–612: a `WORD_REPLACE`
dict lookup, and if that left the word unchanged, the
`WORD_REPLACE_REGEX` rules. -/
def applyWordReplace (w : PStr) : PStr :=
  let w2 := match lookupA WORD_REPLACE w with
    | some v => v
    | none => w
  if w2 = w then applyWordReplaceRegex w2 else w2

/-- The deterministic technical-correction stage of
`nerd_dictation_process` (source lines 584–617): multi-word `\b` regex
replacements, punctuation words, code patterns, then per-word
replacement with empty words dropped. -/
def nerdPostProcess (text : PStr) : PStr :=
  let text := TEXT_REPLACE_REGEX.foldl (fun t p => subWB p.1 p.2 t) text
  let text := CLOSING_PUNCTUATION.foldl (fun t p => replaceAll (' ' :: p.1) p.2 t) text
  let text := OPENING_PUNCTUATION.foldl (fun t p => replaceAll (p.1 ++ [' ']) p.2 t) text
  let text := CODE_PATTERNS.foldl (fun t p => replaceAll p.1 p.2 t) text
  let words := (splitOnSpace text).map applyWordReplace
  joinSpace (words.filter (fun w => w ≠ []))

/-- The state of `nerd_dictation_process`: the LLM module state plus the
global `_last_processed_text` (source line 24). -/
structure ProcState where
  llm : LLMState
  last_processed_text : PStr
deriving DecidableEq

/-- Initial state of the process entry point. -/
def initProcState : ProcState := ⟨initLLMState, []⟩

/-- `nerd_dictation_process` (source lines 565–618): the single entry
point called once per transcript update.  Returns the result string, the
updated state, and whether the oracle was invoked. -/
def nerd_dictation_process (text : PStr) (now : ℚ) (resp : OracleResponse)
    (st : ProcState) : PStr × ProcState × Bool :=
  let original_text := text
  if original_text ≠ st.last_processed_text ∧ pyStripWs original_text ≠ [] then
    let r := improve_text_with_llm text now resp st.llm
    (nerdPostProcess r.1, ⟨r.2.1, original_text⟩, r.2.2)
  else
    (nerdPostProcess text, st, false)

/-! ### Definitions taken from the specification's wording (for
refinement comparisons) -/

/-- Modelled from the spec: the quote-stripping step as §4.4 step 2 and
claim C9 describe it — "strip one layer of enclosing quote characters if
present on both ends", the same kind of quote on both ends, one layer
only, no change otherwise. -/
def claimStripQuotes (s : PStr) : PStr :=
  match s with
  | [] => []
  | c :: rest =>
    if isQuote c = true ∧ rest ≠ [] ∧ rest.getLastD ' ' = c then rest.dropLast
    else s

/-- Sequential cache insertion of a list of key/value pairs into an
initially empty cache, each by `llm_cache_put` (claim C4's experiment). -/
def insertAll (pairs : List (PStr × PStr)) : List (PStr × PStr) :=
  pairs.foldl (fun m p => llm_cache_put m p.1 p.2) []

/-! ## Helper lemmas -/

/-- `ratSub` is ordinary subtraction on `ℚ`. -/
theorem ratSub_eq (a b : ℚ) : ratSub a b = a - b := (Rat.sub_def' a b).symm

/-- `ratMul` is ordinary multiplication on `ℚ`. -/
theorem ratMul_eq (a b : ℚ) : ratMul a b = a * b := by
  rw [ratMul, Rat.mul_def, Rat.normalize_eq_mkRat]

/-- `startsWithP p s` holds exactly when `p` is a prefix of `s`. -/
theorem startsWithP_iff (p s : PStr) : startsWithP p s = true ↔ ∃ r, s = p ++ r := by
  induction p generalizing s with
  | nil => simp [startsWithP]
  | cons c p ih =>
    cases s with
    | nil => simp [startsWithP]
    | cons d s =>
      by_cases h : c = d
      · subst h
        simp [startsWithP, ih]
      · simp only [startsWithP, if_neg h, List.cons_append, List.cons.injEq]
        constructor
        · intro hf; cases hf
        · rintro ⟨r, hd, -⟩; exact absurd hd.symm h

/-- Any string splits as its `dropTrailing` part followed by a tail of
characters satisfying the predicate. -/
theorem dropTrailing_append (P : Char → Bool) (s : PStr) :
    ∃ u, s = dropTrailing P s ++ u ∧ ∀ c ∈ u, P c = true := by
  have h := List.takeWhile_append_dropWhile (p := P) (l := s.reverse)
  have h2 : s = (s.reverse.dropWhile P).reverse ++ (s.reverse.takeWhile P).reverse := by
    rw [← List.reverse_append, h, List.reverse_reverse]
  exact ⟨_, h2, fun c hc => List.mem_takeWhile_imp (List.mem_reverse.mp hc)⟩

/-- The last character left by `dropTrailing` does not satisfy the
predicate. -/
theorem dropTrailing_last (P : Char → Bool) (s : PStr) (c : Char)
    (h : (dropTrailing P s).getLast? = some c) : P c = false := by
  unfold dropTrailing at h
  rw [List.getLast?_reverse] at h
  have hne : s.reverse.dropWhile P ≠ [] := by
    intro e; rw [e] at h; simp at h
  have hnot := List.head_dropWhile_not P s.reverse hne
  rw [List.head?_eq_head hne] at h
  injection h with h
  rw [h] at hnot
  exact hnot

/-- The detector's truncation test compares the stripped candidate
against the *unstripped* stored text (`_last_llm_processed_text.startswith(text.rstrip('.,!?'))`);
this is equivalent to comparing against the stripped stored text,
because a stripped string never ends in the punctuation that stripping
removes. -/
theorem startsWith_rstrip_right (t l : PStr) :
    startsWithP (pyRstrip t) l = startsWithP (pyRstrip t) (pyRstrip l) := by
  obtain ⟨u, hu0, hpu⟩ := dropTrailing_append isPunct l
  have hu : l = pyRstrip l ++ u := hu0
  cases hb : startsWithP (pyRstrip t) (pyRstrip l) with
  | true =>
    obtain ⟨r, hr⟩ := (startsWithP_iff _ _).mp hb
    have hl : l = pyRstrip t ++ (r ++ u) := by
      conv_lhs => rw [hu, hr]
      rw [List.append_assoc]
    exact (startsWithP_iff _ _).mpr ⟨_, hl⟩
  | false =>
    cases ha : startsWithP (pyRstrip t) l with
    | false => rfl
    | true =>
      exfalso
      obtain ⟨r, hr⟩ := (startsWithP_iff _ _).mp ha
      have h1 : pyRstrip t = l.take (pyRstrip t).length := by
        conv_rhs => rw [hr]
        rw [List.take_left]
      by_cases hle : (pyRstrip t).length ≤ (pyRstrip l).length
      · have h2 : l.take (pyRstrip t).length = (pyRstrip l).take (pyRstrip t).length := by
          conv_lhs => rw [hu]
          exact List.take_append_of_le_length hle
        have h3 : startsWithP (pyRstrip t) (pyRstrip l) = true := by
          refine (startsWithP_iff _ _).mpr ⟨(pyRstrip l).drop (pyRstrip t).length, ?_⟩
          conv_lhs => rw [← List.take_append_drop (pyRstrip t).length (pyRstrip l)]
          conv_rhs => rw [h1, h2]
          rw [List.length_take, Nat.min_eq_left hle]
        rw [h3] at hb; cases hb
      · push_neg at hle
        have hplen : (pyRstrip t).length
            = (pyRstrip l).length + ((pyRstrip t).length - (pyRstrip l).length) := by
          omega
        have h2 : l.take (pyRstrip t).length
            = pyRstrip l ++ u.take ((pyRstrip t).length - (pyRstrip l).length) := by
          conv_lhs => rw [hu, hplen]
          exact List.take_append _
        have hlenl : (pyRstrip t).length ≤ l.length := by
          have := congrArg List.length hr
          rw [List.length_append] at this
          omega
        have hul : l.length = (pyRstrip l).length + u.length := by
          conv_lhs => rw [hu]
          rw [List.length_append]
        have hku : (pyRstrip t).length - (pyRstrip l).length ≤ u.length := by omega
        have hne : u.take ((pyRstrip t).length - (pyRstrip l).length) ≠ [] := by
          intro e
          have h5 := congrArg List.length e
          rw [List.length_take, List.length_nil] at h5
          omega
        have hlast : (pyRstrip t).getLast?
            = (u.take ((pyRstrip t).length - (pyRstrip l).length)).getLast? := by
          conv_lhs => rw [h1, h2]
          exact List.getLast?_append_of_ne_nil _ hne
        have hc : (u.take ((pyRstrip t).length - (pyRstrip l).length)).getLast? =
            some ((u.take ((pyRstrip t).length - (pyRstrip l).length)).getLast hne) :=
          List.getLast?_eq_getLast _ hne
        have hmem : (u.take ((pyRstrip t).length - (pyRstrip l).length)).getLast hne ∈ u :=
          List.take_subset _ _ (List.getLast_mem hne)
        have hfalse : isPunct ((u.take ((pyRstrip t).length - (pyRstrip l).length)).getLast hne) = false :=
          dropTrailing_last isPunct t _
            (by show (pyRstrip t).getLast? = _; rw [hlast, hc])
        rw [hpu _ hmem] at hfalse
        cases hfalse

/-- Stripping a string made entirely of `.,!?` yields the empty string. -/
theorem pyRstrip_eq_nil (l : PStr) (h : ∀ c ∈ l, isPunct c = true) : pyRstrip l = [] := by
  unfold pyRstrip dropTrailing
  rw [List.dropWhile_eq_nil_iff.mpr (fun c hc => h c (List.mem_reverse.mp hc))]
  rfl

/-! ## Claim C6 — the progressive-extension detector -/

/-- Claim C6: `shouldProcess(candidate, lastAccepted)` returns `false`
exactly when the candidate has fewer than 3 words or fewer than 15
characters, or when the non-empty stored text relates to the candidate
by the continuation test (candidate starts with the stripped stored
text) or the truncation test (the stripped stored text starts with the
stripped candidate); otherwise it returns `true`. -/
theorem C6_should_process_characterization (text lastAccepted : PStr) :
    should_process_with_llm text lastAccepted = false ↔
      ((pySplitWs text).length < 3 ∨ text.length < 15 ∨
        (lastAccepted ≠ [] ∧ startsWithP (pyRstrip lastAccepted) text = true) ∨
        (lastAccepted ≠ [] ∧ startsWithP (pyRstrip text) (pyRstrip lastAccepted) = true)) := by
  unfold should_process_with_llm
  rw [← startsWith_rstrip_right text lastAccepted]
  show (if (pySplitWs text).length < LLM_MIN_WORDS ∨ text.length < MIN_TEXT_LENGTH_FOR_LLM
      then false
      else if lastAccepted ≠ [] ∧ startsWithP (pyRstrip lastAccepted) text = true then false
      else if lastAccepted ≠ [] ∧ startsWithP (pyRstrip text) lastAccepted = true then false
      else true) = false ↔ _
  unfold LLM_MIN_WORDS MIN_TEXT_LENGTH_FOR_LLM
  split
  · simp_all
    tauto
  · split
    · simp_all
    · split
      · simp_all
      · simp_all

/-- Complete case analysis of `improve_text_with_llm`: exactly one of
the gate-skip, cache-hit, or five oracle-invocation outcomes applies,
with the corresponding result and state update. -/
theorem improve_text_with_llm_cases (text : PStr) (now : ℚ) (resp : OracleResponse)
    (st : LLMState) :
    ((should_process_with_llm text st.last_llm_processed_text = false ∨
        ratSub now st.last_llm_call_time < LLM_DEBOUNCE_DELAY) ∧
      improve_text_with_llm text now resp st = (text, st, false)) ∨
    (should_process_with_llm text st.last_llm_processed_text = true ∧
      LLM_DEBOUNCE_DELAY ≤ ratSub now st.last_llm_call_time ∧
      ((∃ v, lookupA st.llm_cache text = some v ∧
          improve_text_with_llm text now resp st =
            (v, { st with last_llm_call_time := now }, false)) ∨
       (lookupA st.llm_cache text = none ∧
         ((resp = .exn ∧
            improve_text_with_llm text now resp st =
              (text, { st with last_llm_call_time := now,
                               llm_cache := llm_cache_put st.llm_cache text text }, true)) ∨
          (∃ c b, resp = .ok c b ∧ c ≠ 200 ∧
            improve_text_with_llm text now resp st =
              (text, { st with last_llm_call_time := now,
                               llm_cache := llm_cache_put st.llm_cache text text }, true)) ∨
          (∃ b, resp = .ok 200 b ∧ pyStripWs b = [] ∧
            improve_text_with_llm text now resp st =
              (text, { st with last_llm_call_time := now }, true)) ∨
          (∃ b, resp = .ok 200 b ∧ pyStripWs b ≠ [] ∧
            sanitizeOut (pyStripWs b) ≠ [] ∧
            lengthValid text (sanitizeOut (pyStripWs b)) = true ∧
            improve_text_with_llm text now resp st =
              (sanitizeOut (pyStripWs b),
               { st with last_llm_call_time := now,
                         llm_cache := llm_cache_put st.llm_cache text (sanitizeOut (pyStripWs b)),
                         last_llm_processed_text := sanitizeOut (pyStripWs b) }, true)) ∨
          (∃ b, resp = .ok 200 b ∧ pyStripWs b ≠ [] ∧
            ¬(sanitizeOut (pyStripWs b) ≠ [] ∧
              lengthValid text (sanitizeOut (pyStripWs b)) = true) ∧
            improve_text_with_llm text now resp st =
              (text, { st with last_llm_call_time := now,
                               llm_cache := llm_cache_put st.llm_cache text text }, true)))))) := by
  have hEn : ¬(LLM_ENABLED = false) := by simp [LLM_ENABLED]
  by_cases hsp : should_process_with_llm text st.last_llm_processed_text = false
  · left
    refine ⟨Or.inl hsp, ?_⟩
    unfold improve_text_with_llm
    rw [if_neg hEn, if_pos hsp]
  · have hsp' : should_process_with_llm text st.last_llm_processed_text = true := by
      revert hsp; cases should_process_with_llm text st.last_llm_processed_text <;> simp
    by_cases hdb : ratSub now st.last_llm_call_time < LLM_DEBOUNCE_DELAY
    · left
      refine ⟨Or.inr hdb, ?_⟩
      have hdbeq : debounce_allow now st.last_llm_call_time = (false, st.last_llm_call_time) := by
        unfold debounce_allow; rw [if_pos hdb]
      unfold improve_text_with_llm
      rw [if_neg hEn, if_neg hsp, hdbeq]
    · right
      have hdbeq : debounce_allow now st.last_llm_call_time = (true, now) := by
        unfold debounce_allow; rw [if_neg hdb]
      refine ⟨hsp', not_lt.mp hdb, ?_⟩
      cases hca : lookupA st.llm_cache text with
      | some v =>
        left
        refine ⟨v, rfl, ?_⟩
        unfold improve_text_with_llm
        rw [if_neg hEn, if_neg hsp, hdbeq]
        show (match lookupA st.llm_cache text with
          | some v => (v, { st with last_llm_call_time := now }, false)
          | none => _) = _
        rw [hca]
      | none =>
        right
        refine ⟨rfl, ?_⟩
        cases resp with
        | exn =>
          left
          refine ⟨rfl, ?_⟩
          unfold improve_text_with_llm
          rw [if_neg hEn, if_neg hsp, hdbeq]
          show (match lookupA st.llm_cache text with
            | some v => (v, { st with last_llm_call_time := now }, false)
            | none =>
              (text, { st with last_llm_call_time := now,
                               llm_cache := llm_cache_put st.llm_cache text text }, true)) = _
          rw [hca]
        | ok status body =>
          have hmain : improve_text_with_llm text now (.ok status body) st =
              (if status = 200 then
                 if pyStripWs body ≠ [] then
                   if sanitizeOut (pyStripWs body) ≠ [] ∧
                       lengthValid text (sanitizeOut (pyStripWs body)) = true then
                     (sanitizeOut (pyStripWs body),
                      { st with last_llm_call_time := now,
                                llm_cache := llm_cache_put st.llm_cache text
                                  (sanitizeOut (pyStripWs body)),
                                last_llm_processed_text := sanitizeOut (pyStripWs body) }, true)
                   else
                     (text, { st with last_llm_call_time := now,
                                      llm_cache := llm_cache_put st.llm_cache text text }, true)
                 else
                   (text, { st with last_llm_call_time := now }, true)
               else
                 (text, { st with last_llm_call_time := now,
                                  llm_cache := llm_cache_put st.llm_cache text text }, true)) := by
            unfold improve_text_with_llm
            rw [if_neg hEn, if_neg hsp, hdbeq]
            show (match lookupA st.llm_cache text with
              | some v => (v, { st with last_llm_call_time := now }, false)
              | none => _) = _
            rw [hca]
          by_cases hc : status = 200
          · subst hc
            by_cases hb : pyStripWs body = []
            · right; right; left
              refine ⟨body, rfl, hb, ?_⟩
              rw [hmain, if_pos rfl, if_neg (fun hcon => hcon hb)]
            · by_cases hacc : sanitizeOut (pyStripWs body) ≠ [] ∧
                  lengthValid text (sanitizeOut (pyStripWs body)) = true
              · right; right; right; left
                refine ⟨body, rfl, hb, hacc.1, hacc.2, ?_⟩
                rw [hmain, if_pos rfl, if_pos hb, if_pos hacc]
              · right; right; right; right
                refine ⟨body, rfl, hb, hacc, ?_⟩
                rw [hmain, if_pos rfl, if_pos hb, if_neg hacc]
          · right; left
            refine ⟨status, body, rfl, hc, ?_⟩
            rw [hmain, if_neg hc]

/-- A key outside the stored keys looks up to `none`. -/
theorem lookupA_eq_none (m : List (PStr × PStr)) (x : PStr)
    (h : x ∉ m.map Prod.fst) : lookupA m x = none := by
  induction m with
  | nil => rfl
  | cons p m ih =>
    simp only [List.map_cons, List.mem_cons] at h
    push_neg at h
    obtain ⟨p1, p2⟩ := p
    simp only [lookupA]
    rw [if_neg (fun e => h.1 (by rw [e]))]
    exact ih h.2

/-- Appending a fresh binding makes it visible to `lookupA`. -/
theorem lookupA_append_fresh (m : List (PStr × PStr)) (k v : PStr)
    (h : lookupA m k = none) : lookupA (m ++ [(k, v)]) k = some v := by
  induction m with
  | nil => simp [lookupA]
  | cons p m ih =>
    obtain ⟨p1, p2⟩ := p
    simp only [lookupA] at h
    simp only [List.cons_append, lookupA]
    by_cases e : p1 = k
    · rw [if_pos e] at h; cases h
    · rw [if_neg e] at h
      rw [if_neg e]
      exact ih h

/-- Updating an existing binding in place makes the new value visible. -/
theorem lookupA_map_update (m : List (PStr × PStr)) (k v w : PStr)
    (h : lookupA m k = some w) :
    lookupA (m.map (fun p => if p.1 = k then (k, v) else p)) k = some v := by
  induction m with
  | nil => cases h
  | cons p m ih =>
    obtain ⟨p1, p2⟩ := p
    simp only [lookupA] at h
    by_cases e : p1 = k
    · have hmap : List.map (fun p => if p.1 = k then ((k, v) : PStr × PStr) else p) ((p1, p2) :: m)
          = (k, v) :: List.map (fun p => if p.1 = k then (k, v) else p) m := by
        simp [e]
      rw [hmap]
      simp [lookupA]
    · rw [if_neg e] at h
      have hmap : List.map (fun p => if p.1 = k then ((k, v) : PStr × PStr) else p) ((p1, p2) :: m)
          = (p1, p2) :: List.map (fun p => if p.1 = k then (k, v) else p) m := by
        simp [e]
      rw [hmap]
      simp only [lookupA]
      rw [if_neg e]
      exact ih h

/-- After `llm_cache_put cache k v`, the key `k` is bound to `v`. -/
theorem lookupA_put_self (m : List (PStr × PStr)) (k v : PStr) :
    lookupA (llm_cache_put m k v) k = some v := by
  simp only [llm_cache_put]
  cases h : lookupA (if LLM_CACHE_MAX_SIZE ≤ m.length then m.tail else m) k with
  | some w => exact lookupA_map_update _ k v w h
  | none => exact lookupA_append_fresh _ k v h

/-- `llm_cache_put` never grows the cache beyond `LLM_CACHE_MAX_SIZE`. -/
theorem llm_cache_put_length (m : List (PStr × PStr)) (k v : PStr)
    (h : m.length ≤ LLM_CACHE_MAX_SIZE) :
    (llm_cache_put m k v).length ≤ LLM_CACHE_MAX_SIZE := by
  simp only [llm_cache_put]
  by_cases hcap : LLM_CACHE_MAX_SIZE ≤ m.length
  · rw [if_pos hcap]
    cases hl : lookupA m.tail k with
    | some w =>
      rw [List.length_map, List.length_tail]
      omega
    | none =>
      rw [List.length_append, List.length_tail]
      unfold LLM_CACHE_MAX_SIZE at *
      simp only [List.length_singleton]
      omega
  · rw [if_neg hcap]
    cases hl : lookupA m k with
    | some w =>
      rw [List.length_map]
      omega
    | none =>
      rw [List.length_append]
      simp only [List.length_singleton]
      omega

/-- Inserting a key not present in the cache appends it (after the
capacity eviction). -/
theorem llm_cache_put_fresh (m : List (PStr × PStr)) (k v : PStr)
    (h : lookupA m k = none) :
    llm_cache_put m k v
      = (if LLM_CACHE_MAX_SIZE ≤ m.length then m.tail else m) ++ [(k, v)] := by
  have htail : lookupA (if LLM_CACHE_MAX_SIZE ≤ m.length then m.tail else m) k = none := by
    split
    · cases m with
      | nil => rfl
      | cons p m2 =>
        obtain ⟨p1, p2⟩ := p
        simp only [lookupA] at h
        by_cases e : p1 = k
        · rw [if_pos e] at h; cases h
        · rw [if_neg e] at h
          exact h
    · exact h
  simp only [llm_cache_put]
  rw [htail]

/-- Sequentially inserting pairs with pairwise-distinct keys into an
initially empty cache leaves exactly the last `LLM_CACHE_MAX_SIZE`
pairs, in insertion order: strict FIFO eviction. -/
theorem insertAll_eq_drop (pairs : List (PStr × PStr))
    (h : (pairs.map Prod.fst).Nodup) :
    insertAll pairs = pairs.drop (pairs.length - LLM_CACHE_MAX_SIZE) := by
  induction pairs using List.reverseRecOn with
  | nil => rfl
  | append_singleton l p ih =>
    have hmap := h
    rw [List.map_append] at hmap
    have hkeys : (l.map Prod.fst).Nodup := hmap.of_append_left
    have hnotin : p.1 ∉ l.map Prod.fst := by
      intro hmem
      exact (List.disjoint_of_nodup_append hmap) hmem (by simp)
    have hC : LLM_CACHE_MAX_SIZE = 100 := rfl
    have hfold : insertAll (l ++ [p]) = llm_cache_put (insertAll l) p.1 p.2 := by
      unfold insertAll
      rw [List.foldl_append]
      rfl
    rw [hfold, ih hkeys]
    have hfresh : lookupA (l.drop (l.length - LLM_CACHE_MAX_SIZE)) p.1 = none := by
      apply lookupA_eq_none
      intro hmem
      exact hnotin (List.map_subset _ (List.drop_subset _ _) hmem)
    have hput := llm_cache_put_fresh _ p.1 p.2 hfresh
    rw [Prod.mk.eta] at hput
    have hlen2 : (l ++ [p]).length = l.length + 1 := by
      rw [List.length_append, List.length_singleton]
    by_cases hcap : LLM_CACHE_MAX_SIZE ≤ l.length
    · have hDlen : (l.drop (l.length - LLM_CACHE_MAX_SIZE)).length = LLM_CACHE_MAX_SIZE := by
        rw [List.length_drop]
        omega
      rw [hput, if_pos (by rw [hDlen]), List.tail_drop]
      have harith : l.length - LLM_CACHE_MAX_SIZE + 1 = l.length + 1 - LLM_CACHE_MAX_SIZE := by
        omega
      rw [harith, hlen2]
      rw [List.drop_append_of_le_length (by omega)]

    · push_neg at hcap
      have hd0 : l.length - LLM_CACHE_MAX_SIZE = 0 := by omega
      have hd1 : (l ++ [p]).length - LLM_CACHE_MAX_SIZE = 0 := by
        rw [hlen2]
        unfold LLM_CACHE_MAX_SIZE at *
        omega
      rw [hput, hd0, List.drop_zero, if_neg (by omega), hd1, List.drop_zero]

/-! ## Claim C4 — bounded FIFO cache -/

/-- Claim C4: inserting `maxSize + k` pairwise-distinct keys into the
empty cache leaves exactly `maxSize` entries with the `k`
oldest-inserted keys absent; moreover a single `put` never grows a
within-bounds cache past `maxSize`, and a `put` of a fresh key at
capacity removes exactly the single oldest-inserted entry (strict FIFO,
reads never reorder). -/
theorem C4_cache_fifo_bound (pairs : List (PStr × PStr)) (k : Nat)
    (hnd : (pairs.map Prod.fst).Nodup)
    (hlen : pairs.length = LLM_CACHE_MAX_SIZE + k) :
    (insertAll pairs).length = LLM_CACHE_MAX_SIZE ∧
    (∀ key ∈ (pairs.map Prod.fst).take k, lookupA (insertAll pairs) key = none) ∧
    (∀ m key v, m.length ≤ LLM_CACHE_MAX_SIZE →
      (llm_cache_put m key v).length ≤ LLM_CACHE_MAX_SIZE) ∧
    (∀ m key v, m.length = LLM_CACHE_MAX_SIZE → lookupA m key = none →
      llm_cache_put m key v = m.tail ++ [(key, v)]) := by
  have hdrop := insertAll_eq_drop pairs hnd
  have hk : pairs.length - LLM_CACHE_MAX_SIZE = k := by omega
  refine ⟨?_, ?_, ?_, ?_⟩
  · rw [hdrop, List.length_drop]
    omega
  · intro key hkey
    rw [hdrop, hk]
    apply lookupA_eq_none
    intro hmem
    rw [List.map_drop] at hmem
    exact (List.disjoint_take_drop hnd le_rfl) hkey hmem
  · intro m key v hm
    exact llm_cache_put_length m key v hm
  · intro m key v hm hfresh
    rw [llm_cache_put_fresh m key v hfresh, if_pos (le_of_eq hm.symm)]

/-- Witness for C4 at 101 distinct single-character keys. -/
theorem C4_cache_fifo_bound_witness :
    (insertAll ((List.range 101).map
        (fun i => (([Char.ofNat (65 + i)] : PStr), ([] : PStr))))).length
      = LLM_CACHE_MAX_SIZE ∧
    (∀ key ∈ (((List.range 101).map
        (fun i => (([Char.ofNat (65 + i)] : PStr), ([] : PStr)))).map Prod.fst).take 1,
      lookupA (insertAll ((List.range 101).map
        (fun i => (([Char.ofNat (65 + i)] : PStr), ([] : PStr))))) key = none) :=
  ⟨(C4_cache_fifo_bound _ 1 (by decide) (by decide)).1,
   (C4_cache_fifo_bound _ 1 (by decide) (by decide)).2.1⟩

/-! ## Claim C7 — the debounce gate -/

/-- Whenever `improve_text_with_llm` reports that the oracle was
invoked, the updated state's timestamp equals the call time and the
debounce inequality held on entry. -/
theorem improve_invoked_time (text : PStr) (now : ℚ) (resp : OracleResponse)
    (st : LLMState) (h : (improve_text_with_llm text now resp st).2.2 = true) :
    (improve_text_with_llm text now resp st).2.1.last_llm_call_time = now ∧
    LLM_DEBOUNCE_DELAY ≤ ratSub now st.last_llm_call_time := by
  rcases improve_text_with_llm_cases text now resp st with ⟨_, heq⟩ | ⟨_, hdb, hrest⟩
  · rw [heq] at h; cases h
  · rcases hrest with ⟨v, _, heq⟩ | ⟨_, hcase⟩
    · rw [heq] at h; cases h
    · rcases hcase with ⟨_, heq⟩ | ⟨c, b, _, _, heq⟩ | ⟨b, _, _, heq⟩ |
        ⟨b, _, _, _, _, heq⟩ | ⟨b, _, _, _, heq⟩ <;> rw [heq] <;> exact ⟨rfl, hdb⟩

/-- Claim C7: the debounce gate returns true and updates the stored
timestamp to `now` exactly when `now - lastCallTimestamp` is at least
`LLM_DEBOUNCE_DELAY`, otherwise it returns false and leaves the
timestamp unchanged; consequently two calls with distinct new-utterance
inputs made less than the debounce interval apart invoke the oracle at
most once (the second call's gate must fail). -/
theorem C7_debounce_gate (now last t₁ t₂ : ℚ) (s₁ s₂ : PStr) (r₁ r₂ : OracleResponse)
    (st : LLMState) (_hs : s₁ ≠ s₂) (hlt : t₂ - t₁ < LLM_DEBOUNCE_DELAY) :
    (debounce_allow now last = (true, now) ↔ LLM_DEBOUNCE_DELAY ≤ now - last) ∧
    (now - last < LLM_DEBOUNCE_DELAY → debounce_allow now last = (false, last)) ∧
    ¬((improve_text_with_llm s₁ t₁ r₁ st).2.2 = true ∧
      (improve_text_with_llm s₂ t₂ r₂
        (improve_text_with_llm s₁ t₁ r₁ st).2.1).2.2 = true) := by
  refine ⟨?_, ?_, ?_⟩
  · unfold debounce_allow
    rw [ratSub_eq]
    by_cases hcond : now - last < LLM_DEBOUNCE_DELAY
    · rw [if_pos hcond]
      constructor
      · intro he
        injection he with he1 he2
        cases he1
      · intro hge
        exact absurd hge (not_le.mpr hcond)
    · rw [if_neg hcond]
      simp [not_lt.mp hcond]
  · intro hcond
    unfold debounce_allow
    rw [ratSub_eq, if_pos hcond]
  · rintro ⟨h1, h2⟩
    have ht1 := improve_invoked_time s₁ t₁ r₁ st h1
    have ht2 := improve_invoked_time s₂ t₂ r₂ _ h2
    rw [ht1.1] at ht2
    have := ht2.2
    rw [ratSub_eq] at this
    exact absurd this (not_le.mpr hlt)

/-- Witness for C7: two gate-passing inputs one tenth of a second apart
invoke the oracle at most once. -/
theorem C7_debounce_gate_witness :
    (debounce_allow 1 0 = (true, 1) ↔ LLM_DEBOUNCE_DELAY ≤ 1 - 0) ∧
    ¬((improve_text_with_llm ("this are a test here".data) 1 .exn initLLMState).2.2 = true ∧
      (improve_text_with_llm ("the weather is nice today".data) (mkRat 11 10) .exn
        (improve_text_with_llm ("this are a test here".data) 1 .exn initLLMState).2.1).2.2
        = true) :=
  ⟨(C7_debounce_gate 1 0 1 (mkRat 11 10) ("this are a test here".data)
      ("the weather is nice today".data) .exn .exn initLLMState (by decide)
      (by rw [← ratSub_eq]; decide)).1,
   (C7_debounce_gate 1 0 1 (mkRat 11 10) ("this are a test here".data)
      ("the weather is nice today".data) .exn .exn initLLMState (by decide)
      (by rw [← ratSub_eq]; decide)).2.2⟩

/-! ## Claim C10 — punctuation-only stored text suppresses all calls -/

/-- Claim C10: if the stored `_last_llm_processed_text` is non-empty but
consists entirely of `.`, `,`, `!`, `?`, then stripping it yields the
empty string, every candidate starts with that empty prefix, so
`should_process_with_llm` returns false for every candidate and
`improve_text_with_llm` never invokes the oracle (returning every input
unchanged with unchanged state) until the stored value is overwritten. -/
theorem C10_punct_only_suppresses (lastAccepted : PStr)
    (hne : lastAccepted ≠ []) (hp : ∀ c ∈ lastAccepted, isPunct c = true) :
    (∀ text, should_process_with_llm text lastAccepted = false) ∧
    (∀ text now resp (st : LLMState), st.last_llm_processed_text = lastAccepted →
      improve_text_with_llm text now resp st = (text, st, false)) := by
  have hstrip : pyRstrip lastAccepted = [] := pyRstrip_eq_nil _ hp
  have hsp : ∀ text, should_process_with_llm text lastAccepted = false := by
    intro text
    unfold should_process_with_llm
    split
    · rfl
    · rw [if_pos ⟨hne, by rw [hstrip]; rfl⟩]
  refine ⟨hsp, ?_⟩
  intro text now resp st hlast
  unfold improve_text_with_llm
  rw [if_neg (by simp [LLM_ENABLED]), if_pos (by rw [hlast]; exact hsp text)]

/-- Witness for C10 at the stored text `".,!?"`. -/
theorem C10_punct_only_suppresses_witness :
    should_process_with_llm ("this is a perfectly long candidate".data) (".,!?".data) = false ∧
    improve_text_with_llm ("this is a perfectly long candidate".data) 1 .exn
        ⟨[], 0, (".,!?".data)⟩
      = (("this is a perfectly long candidate".data), ⟨[], 0, (".,!?".data)⟩, false) :=
  ⟨(C10_punct_only_suppresses (".,!?".data) (by decide) (by decide)).1 _,
   (C10_punct_only_suppresses (".,!?".data) (by decide) (by decide)).2 _ 1 .exn _ rfl⟩

/-! ## Claim C3 — caching on rejected oracle attempts -/

/-- Claim C3 could not hold as stated: when the oracle body is empty
after trimming, the code (source lines 153–154) returns the original
*without* caching it.  At a concrete such input the oracle is invoked,
the original is returned, and the key is absent from the cache. -/
theorem C3_counterexample :
    (improve_text_with_llm ("this are a test here".data) 1
        (.ok 200 ("   ".data)) initLLMState).2.2 = true ∧
    (improve_text_with_llm ("this are a test here".data) 1
        (.ok 200 ("   ".data)) initLLMState).1 = ("this are a test here".data) ∧
    lookupA (improve_text_with_llm ("this are a test here".data) 1
        (.ok 200 ("   ".data)) initLLMState).2.1.llm_cache
      ("this are a test here".data) = none := by
  decide

/-- Claim C3 as amended: whenever the oracle is invoked and the attempt
fails by transport exception, non-200 status, or validator rejection of
a non-empty trimmed output, the entry `original → original` is stored in
the cache and the original is returned; but when the oracle output is
empty after trimming, the original is returned without touching the
cache. -/
theorem C3_fallback_caching (text : PStr) (now : ℚ) (resp : OracleResponse)
    (st : LLMState)
    (hinv : (improve_text_with_llm text now resp st).2.2 = true) :
    ((resp = .exn ∨ (∃ c b, resp = .ok c b ∧ c ≠ 200) ∨
      (∃ b, resp = .ok 200 b ∧ pyStripWs b ≠ [] ∧
        ¬(sanitizeOut (pyStripWs b) ≠ [] ∧
          lengthValid text (sanitizeOut (pyStripWs b)) = true))) →
      lookupA (improve_text_with_llm text now resp st).2.1.llm_cache text = some text ∧
      (improve_text_with_llm text now resp st).1 = text) ∧
    ((∃ b, resp = .ok 200 b ∧ pyStripWs b = []) →
      (improve_text_with_llm text now resp st).1 = text ∧
      (improve_text_with_llm text now resp st).2.1.llm_cache = st.llm_cache) := by
  rcases improve_text_with_llm_cases text now resp st with ⟨_, heq⟩ | ⟨_, _, hrest⟩
  · rw [heq] at hinv; cases hinv
  · rcases hrest with ⟨v, _, heq⟩ | ⟨_, hcase⟩
    · rw [heq] at hinv; cases hinv
    · rcases hcase with ⟨hre, heq⟩ | ⟨c, b, hre, hc, heq⟩ | ⟨b, hre, hb, heq⟩ |
        ⟨b, hre, hb, hcl, hlv, heq⟩ | ⟨b, hre, hb, hrej, heq⟩
      · subst hre
        constructor
        · intro _
          rw [heq]
          exact ⟨lookupA_put_self _ _ _, rfl⟩
        · rintro ⟨b, hb, -⟩
          cases hb
      · subst hre
        constructor
        · intro _
          rw [heq]
          exact ⟨lookupA_put_self _ _ _, rfl⟩
        · rintro ⟨b2, hb2, -⟩
          injection hb2 with hc2 hb3
          exact absurd hc2 hc
      · subst hre
        constructor
        · rintro (h | ⟨c2, b2, h2, hc2⟩ | ⟨b2, h2, hb2, -⟩)
          · cases h
          · injection h2 with hc3 hb3
            exact absurd hc3.symm hc2
          · injection h2 with hc3 hb3
            subst hb3
            exact absurd hb hb2
        · intro _
          rw [heq]
          exact ⟨rfl, rfl⟩
      · subst hre
        constructor
        · rintro (h | ⟨c2, b2, h2, hc2⟩ | ⟨b2, h2, hb2, hrej2⟩)
          · cases h
          · injection h2 with hc3 hb3
            exact absurd hc3.symm hc2
          · injection h2 with hc3 hb3
            subst hb3
            exact absurd ⟨hcl, hlv⟩ hrej2
        · rintro ⟨b2, h2, hb2⟩
          injection h2 with hc3 hb3
          subst hb3
          exact absurd hb2 hb
      · subst hre
        constructor
        · intro _
          rw [heq]
          exact ⟨lookupA_put_self _ _ _, rfl⟩
        · rintro ⟨b2, h2, hb2⟩
          injection h2 with hc3 hb3
          subst hb3
          exact absurd hb2 hb

/-- Witness for the amended C3 at a non-200 response. -/
theorem C3_fallback_caching_witness :
    lookupA (improve_text_with_llm ("this are a test here".data) 1
        (.ok 500 ("ignored".data)) initLLMState).2.1.llm_cache
      ("this are a test here".data) = some ("this are a test here".data) ∧
    (improve_text_with_llm ("this are a test here".data) 1
        (.ok 500 ("ignored".data)) initLLMState).1 = ("this are a test here".data) :=
  (C3_fallback_caching ("this are a test here".data) 1 (.ok 500 ("ignored".data))
      initLLMState (by decide)).1
    (Or.inr (Or.inl ⟨500, ("ignored".data), rfl, by decide⟩))

/-! ## Claim C5 — freshness of `lastCorrectedOutput` -/

/-- Claim C5 could not hold as stated: on a completed new-utterance call
that falls back to the original (here, a transport exception), the code
never updates `_last_llm_processed_text`, which keeps the accepted value
of an earlier, unrelated utterance. -/
theorem C5_counterexample :
    (improve_text_with_llm ("totally different new words".data) 1 .exn
        ⟨[], 0, ("previous text here ok".data)⟩).2.2 = true ∧
    (improve_text_with_llm ("totally different new words".data) 1 .exn
        ⟨[], 0, ("previous text here ok".data)⟩).1
      = ("totally different new words".data) ∧
    (improve_text_with_llm ("totally different new words".data) 1 .exn
        ⟨[], 0, ("previous text here ok".data)⟩).2.1.last_llm_processed_text
      ≠ (improve_text_with_llm ("totally different new words".data) 1 .exn
        ⟨[], 0, ("previous text here ok".data)⟩).1 := by
  decide

/-- Claim C5 as amended: `_last_llm_processed_text` is set to the value
returned by the call exactly when the validator accepts a correction;
on every fallback completion (exception, non-200 status, empty or
rejected output) and on every call that does not invoke the oracle, it
retains its previous value, which may describe an earlier utterance. -/
theorem C5_last_corrected_update (text : PStr) (now : ℚ) (resp : OracleResponse)
    (st : LLMState) :
    ((improve_text_with_llm text now resp st).2.2 = true →
      ∀ b, resp = .ok 200 b → pyStripWs b ≠ [] →
        sanitizeOut (pyStripWs b) ≠ [] →
        lengthValid text (sanitizeOut (pyStripWs b)) = true →
        (improve_text_with_llm text now resp st).2.1.last_llm_processed_text
          = (improve_text_with_llm text now resp st).1) ∧
    ((improve_text_with_llm text now resp st).2.2 = true →
      (resp = .exn ∨ (∃ c b, resp = .ok c b ∧ c ≠ 200) ∨
        (∃ b, resp = .ok 200 b ∧ pyStripWs b = []) ∨
        (∃ b, resp = .ok 200 b ∧ pyStripWs b ≠ [] ∧
          ¬(sanitizeOut (pyStripWs b) ≠ [] ∧
            lengthValid text (sanitizeOut (pyStripWs b)) = true))) →
      (improve_text_with_llm text now resp st).2.1.last_llm_processed_text
        = st.last_llm_processed_text ∧
      (improve_text_with_llm text now resp st).1 = text) ∧
    ((improve_text_with_llm text now resp st).2.2 = false →
      (improve_text_with_llm text now resp st).2.1.last_llm_processed_text
        = st.last_llm_processed_text) := by
  rcases improve_text_with_llm_cases text now resp st with ⟨_, heq⟩ | ⟨_, _, hrest⟩
  · rw [heq]
    exact ⟨(fun h => by cases h), (fun h => by cases h), fun _ => rfl⟩
  · rcases hrest with ⟨v, _, heq⟩ | ⟨_, hcase⟩
    · rw [heq]
      exact ⟨(fun h => by cases h), (fun h => by cases h), fun _ => rfl⟩
    · rcases hcase with ⟨hre, heq⟩ | ⟨c, b, hre, hc, heq⟩ | ⟨b, hre, hb, heq⟩ |
        ⟨b, hre, hb, hcl, hlv, heq⟩ | ⟨b, hre, hb, hrej, heq⟩
      · subst hre
        rw [heq]
        exact ⟨(fun _ b hb => by cases hb), (fun _ _ => ⟨rfl, rfl⟩), fun h => by cases h⟩
      · subst hre
        rw [heq]
        refine ⟨fun _ b2 hb2 => ?_, fun _ _ => ⟨rfl, rfl⟩, fun h => by cases h⟩
        injection hb2 with hc2 hb3
        exact absurd hc2 hc
      · subst hre
        rw [heq]
        refine ⟨fun _ b2 hb2 hne => ?_, fun _ _ => ⟨rfl, rfl⟩, fun h => by cases h⟩
        injection hb2 with hc2 hb3
        subst hb3
        exact absurd hb hne
      · subst hre
        rw [heq]
        refine ⟨fun _ b2 hb2 _ _ _ => ?_, fun _ hfail => ?_, fun h => by cases h⟩
        · rfl
        · rcases hfail with h | ⟨c2, b2, h2, hc2⟩ | ⟨b2, h2, hb2⟩ | ⟨b2, h2, hb2, hrej2⟩
          · cases h
          · injection h2 with hc3 hb3
            exact absurd hc3.symm hc2
          · injection h2 with hc3 hb3
            subst hb3
            exact absurd hb2 hb
          · injection h2 with hc3 hb3
            subst hb3
            exact absurd ⟨hcl, hlv⟩ hrej2
      · subst hre
        rw [heq]
        refine ⟨fun _ b2 hb2 hne hcl2 hlv2 => ?_, fun _ _ => ⟨rfl, rfl⟩, fun h => by cases h⟩
        injection hb2 with hc2 hb3
        subst hb3
        exact absurd ⟨hcl2, hlv2⟩ hrej

/-- Witness for the amended C5 at an accepted correction. -/
theorem C5_last_corrected_update_witness :
    (improve_text_with_llm ("this are a test here".data) 1
        (.ok 200 ("this is a test here".data)) initLLMState).2.1.last_llm_processed_text
      = (improve_text_with_llm ("this are a test here".data) 1
        (.ok 200 ("this is a test here".data)) initLLMState).1 :=
  (C5_last_corrected_update ("this are a test here".data) 1
      (.ok 200 ("this is a test here".data)) initLLMState).1 (by decide)
    ("this is a test here".data) rfl (by decide) (by decide) (by decide)

/-! ## Claim C8 — total fallback behavior (no exception escapes) -/

/-- Claim C8: for every input, time, state and oracle behavior
(exception, non-success status, empty, or invalid output), the
correction stage is total and degrades to returning the input
unchanged on every internal failure; in general its result is the
input, a previously cached value, or the sanitized accepted oracle
output, and the entry point `nerd_dictation_process` likewise always
returns a value (exceptions exist in the model only as the
`OracleResponse.exn` value, which the code catches at source line 162). -/
theorem C8_never_raises_falls_back (text : PStr) (now : ℚ) (resp : OracleResponse)
    (st : LLMState) (st2 : ProcState)
    (hfail : resp = .exn ∨ (∃ c b, resp = .ok c b ∧ c ≠ 200) ∨
      (∃ b, resp = .ok 200 b ∧ pyStripWs b = []) ∨
      (∃ b, resp = .ok 200 b ∧
        ¬(sanitizeOut (pyStripWs b) ≠ [] ∧
          lengthValid text (sanitizeOut (pyStripWs b)) = true))) :
    ((improve_text_with_llm text now resp st).2.2 = true →
      (improve_text_with_llm text now resp st).1 = text) ∧
    ((improve_text_with_llm text now resp st).1 = text ∨
      lookupA st.llm_cache text = some (improve_text_with_llm text now resp st).1) ∧
    (∃ out st3 inv, nerd_dictation_process text now resp st2 = (out, st3, inv)) := by
  refine ⟨?_, ?_, ⟨_, _, _, rfl⟩⟩ <;>
  · rcases improve_text_with_llm_cases text now resp st with ⟨_, heq⟩ | ⟨_, _, hrest⟩
    · rw [heq]
      first
      | exact fun h => by cases h
      | exact Or.inl rfl
    · rcases hrest with ⟨v, hv, heq⟩ | ⟨_, hcase⟩
      · rw [heq]
        first
        | exact fun h => by cases h
        | exact Or.inr hv
      · rcases hcase with ⟨hre, heq⟩ | ⟨c, b, hre, hc, heq⟩ | ⟨b, hre, hb, heq⟩ |
          ⟨b, hre, hb, hcl, hlv, heq⟩ | ⟨b, hre, hb, hrej, heq⟩ <;> rw [heq] <;> subst hre
        · first
          | exact fun _ => rfl
          | exact Or.inl rfl
        · first
          | exact fun _ => rfl
          | exact Or.inl rfl
        · first
          | exact fun _ => rfl
          | exact Or.inl rfl
        · exfalso
          rcases hfail with h | ⟨c2, b2, h2, hc2⟩ | ⟨b2, h2, hb2⟩ | ⟨b2, h2, hrej2⟩
          · cases h
          · injection h2 with hc3 hb3
            exact absurd hc3.symm hc2
          · injection h2 with hc3 hb3
            subst hb3
            exact absurd hb2 hb
          · injection h2 with hc3 hb3
            subst hb3
            exact absurd ⟨hcl, hlv⟩ hrej2
        · first
          | exact fun _ => rfl
          | exact Or.inl rfl

/-- Witness for C8 at a non-200 status response. -/
theorem C8_never_raises_falls_back_witness :
    (improve_text_with_llm ("this are a test here".data) 1 (.ok 500 ("whatever".data))
        initLLMState).1 = ("this are a test here".data) ∨
    lookupA initLLMState.llm_cache ("this are a test here".data)
      = some (improve_text_with_llm ("this are a test here".data) 1
          (.ok 500 ("whatever".data)) initLLMState).1 :=
  (C8_never_raises_falls_back ("this are a test here".data) 1 (.ok 500 ("whatever".data))
      initLLMState initProcState
      (Or.inr (Or.inl ⟨500, ("whatever".data), rfl, by decide⟩))).2.1

/-! ## Claim C9 — quote stripping -/

/-- Claim C9 could not hold as stated: `strip('"\'')` also removes a
quote present on only one end (and any number of layers, of mixed
kinds), whereas the claimed sanitizer removes exactly one same-kind
enclosing layer and would leave this input unchanged. -/
theorem C9_counterexample :
    stripQuotes (dquote :: ("hello world".data))
      ≠ claimStripQuotes (dquote :: ("hello world".data)) := by
  decide

/-- Claim C9 as amended: the quote-stripping step removes *all* leading
and *all* trailing quote characters (double or single, independently on
each end, any number of layers): the result is the unique middle part of
the input whose flanks are quote characters and whose own ends are not. -/
theorem C9_strip_quotes_all_layers (s : PStr) :
    ∃ a b, s = a ++ stripQuotes s ++ b ∧
      (∀ c ∈ a, isQuote c = true) ∧ (∀ c ∈ b, isQuote c = true) ∧
      (stripQuotes s = [] ∨
        ((∀ c, (stripQuotes s).head? = some c → isQuote c = false) ∧
         (∀ c, (stripQuotes s).getLast? = some c → isQuote c = false))) := by
  obtain ⟨b, hmb, hb⟩ := dropTrailing_append isQuote (s.dropWhile isQuote)
  refine ⟨s.takeWhile isQuote, b, ?_, (fun c hc => List.mem_takeWhile_imp hc), hb, ?_⟩
  · conv_lhs => rw [← List.takeWhile_append_dropWhile (p := isQuote) (l := s)]
    rw [List.append_assoc]
    congr 1
  · by_cases hr : stripQuotes s = []
    · exact Or.inl hr
    · right
      refine ⟨?_, fun c hc => dropTrailing_last isQuote _ c hc⟩
      intro c hc
      have hm : s.dropWhile isQuote = stripQuotes s ++ b := hmb
      have hmne : s.dropWhile isQuote ≠ [] := by
        rw [hm]
        intro e
        exact hr (List.append_eq_nil.mp e).1
      have hh : (s.dropWhile isQuote).head? = some c := by
        rw [hm, List.head?_append_of_ne_nil _ hr]
        exact hc
      have hnot := List.head_dropWhile_not isQuote s hmne
      rw [List.head?_eq_head hmne] at hh
      injection hh with hh
      rw [hh] at hnot
      exact hnot

/-! ## Claim C2 — validator length bounds -/

/-- Claim C2 exposes a slip in the code: source line 131 compares `0.3`
with the *absolute* cleaned length (`0.3 <= len(improved_text)`), not
with `0.3 * len(original)`, so any non-empty cleaned output of at most
twice the original length is accepted.  At the failing input — original
of length 30, oracle output of length 6 = 0.2 × 30 — the code accepts
and returns the short output instead of rejecting it and returning the
original. -/
theorem C2_short_output_accepted :
    (improve_text_with_llm ("this are a clear grammar error".data) 1
        (.ok 200 ("tis er".data)) initLLMState).1 = ("tis er".data) ∧
    ("tis er".data : PStr) ≠ ("this are a clear grammar error".data) ∧
    (improve_text_with_llm ("this are a clear grammar error".data) 1
        (.ok 200 ("tis er".data)) initLLMState).2.2 = true ∧
    ("tis er".data : PStr).length * 10
      = ("this are a clear grammar error".data : PStr).length * 2 ∧
    lengthValid ("this are a clear grammar error".data) ("tis er".data) = true := by
  decide

/-! ## Claim C1 — repeated identical calls -/

set_option maxHeartbeats 8000000 in
/-- Claim C1 could not hold as stated: the second identical call skips
the LLM stage entirely (because `_last_processed_text` now equals the
input) and post-processes the *raw* input, so when the first call
accepted a correction the two results differ. -/
theorem C1_counterexample :
    (nerd_dictation_process ("this are a test here".data) 1
        (.ok 200 ("this is a test here".data)) initProcState).1
      ≠ (nerd_dictation_process ("this are a test here".data) 1
          (.ok 200 ("this is a test here".data))
          (nerd_dictation_process ("this are a test here".data) 1
            (.ok 200 ("this is a test here".data)) initProcState).2.1).1 := by
  decide

/-- Claim C1 as amended: across two immediately successive calls with
the same string the oracle is invoked at most once — the second call
never invokes it and returns the deterministic post-processing of the
raw input — and the two results coincide whenever the first call's
correction stage returned its input unchanged (in particular on every
fallback); they may differ when a correction was accepted. -/
theorem C1_second_call_skips_oracle (s : PStr) (now₁ now₂ : ℚ)
    (r₁ r₂ : OracleResponse) (st : ProcState) :
    (nerd_dictation_process s now₂ r₂
        (nerd_dictation_process s now₁ r₁ st).2.1).2.2 = false ∧
    (nerd_dictation_process s now₂ r₂
        (nerd_dictation_process s now₁ r₁ st).2.1).1 = nerdPostProcess s ∧
    ((improve_text_with_llm s now₁ r₁ st.llm).1 = s →
      (nerd_dictation_process s now₁ r₁ st).1
        = (nerd_dictation_process s now₂ r₂
            (nerd_dictation_process s now₁ r₁ st).2.1).1) := by
  by_cases hcond : s ≠ st.last_processed_text ∧ pyStripWs s ≠ []
  · have h1 : nerd_dictation_process s now₁ r₁ st
        = (nerdPostProcess (improve_text_with_llm s now₁ r₁ st.llm).1,
           ⟨(improve_text_with_llm s now₁ r₁ st.llm).2.1, s⟩,
           (improve_text_with_llm s now₁ r₁ st.llm).2.2) := by
      simp only [nerd_dictation_process]
      rw [if_pos hcond]
    have hA : (nerd_dictation_process s now₁ r₁ st).2.1
        = (⟨(improve_text_with_llm s now₁ r₁ st.llm).2.1, s⟩ : ProcState) := by
      rw [h1]
    have hB : (nerd_dictation_process s now₁ r₁ st).1
        = nerdPostProcess (improve_text_with_llm s now₁ r₁ st.llm).1 := by
      rw [h1]
    have h2 : nerd_dictation_process s now₂ r₂
        (⟨(improve_text_with_llm s now₁ r₁ st.llm).2.1, s⟩ : ProcState)
        = (nerdPostProcess s,
           ⟨(improve_text_with_llm s now₁ r₁ st.llm).2.1, s⟩, false) := by
      simp only [nerd_dictation_process]
      rw [if_neg (fun h => h.1 rfl)]
    refine ⟨?_, ?_, fun himp => ?_⟩
    · rw [hA, h2]
    · rw [hA, h2]
    · rw [hA, h2, hB, himp]
  · have h1 : nerd_dictation_process s now₁ r₁ st = (nerdPostProcess s, st, false) := by
      simp only [nerd_dictation_process]
      rw [if_neg hcond]
    have hA : (nerd_dictation_process s now₁ r₁ st).2.1 = st := by rw [h1]
    have hB : (nerd_dictation_process s now₁ r₁ st).1 = nerdPostProcess s := by rw [h1]
    have h2 : nerd_dictation_process s now₂ r₂ st = (nerdPostProcess s, st, false) := by
      simp only [nerd_dictation_process]
      rw [if_neg hcond]
    refine ⟨?_, ?_, fun _ => ?_⟩
    · rw [hA, h2]
    · rw [hA, h2]
    · rw [hA, h2, hB]

/-- Witness for the amended C1 on a fallback first call (oracle
exception): the two successive identical calls agree and the second
never invokes the oracle. -/
theorem C1_second_call_skips_oracle_witness :
    (nerd_dictation_process ("this are a test here".data) 2 .exn
        (nerd_dictation_process ("this are a test here".data) 1 .exn
          initProcState).2.1).2.2 = false ∧
    (nerd_dictation_process ("this are a test here".data) 1 .exn initProcState).1
      = (nerd_dictation_process ("this are a test here".data) 2 .exn
          (nerd_dictation_process ("this are a test here".data) 1 .exn
            initProcState).2.1).1 :=
  ⟨(C1_second_call_skips_oracle ("this are a test here".data) 1 2 .exn .exn
      initProcState).1,
   (C1_second_call_skips_oracle ("this are a test here".data) 1 2 .exn .exn
      initProcState).2.2 (by decide)⟩
